import Mathlib

/-!
# Object-id picking demo (`src/main.cpp`): embedding and verified properties

The program renders a cone and a cylinder, draws an id-pass into an off-screen
picking texture, reads back the pixel at the aim point on a click and lets the
selected object follow the camera.

Modelling conventions.

* Scalars of `glm::vec3` are an arbitrary type `α` carrying the operations the
  code uses (`+`, `*`, the literal `3`); nothing is assumed about them, so the
  results hold for IEEE floats as well as for exact numbers.
* `glm::mat4` is an arbitrary type `M`.  `Transform::get_transform_matrix`, the
  identity matrix, the palette colours and the rotation literals live outside
  `main.cpp` and are supplied through `Ext`.
* What the platform decides (pressed buttons, camera pose after
  `process_input`, texels produced by the GPU, generated GL names, framebuffer
  status) is an explicit input.
* `unsigned int` is a `Nat` reduced modulo `2 ^ 32`.
-/

namespace Picking

/-! ## Data model -/

/-- Three-component vector (`glm::vec3`). -/
structure Vec3 (α : Type) where
  x : α
  y : α
  z : α
deriving DecidableEq

/-- Componentwise sum, `glm::vec3 + glm::vec3`. -/
def Vec3.add {α : Type} [Add α] (a b : Vec3 α) : Vec3 α :=
  ⟨a.x + b.x, a.y + b.y, a.z + b.z⟩

/-- Scalar times vector, `float * glm::vec3`. -/
def Vec3.smul {α : Type} [Mul α] (s : α) (v : Vec3 α) : Vec3 α :=
  ⟨s * v.x, s * v.y, s * v.z⟩

/-- Pose of an object: the `transform` member of `IndexedVertexPositions`. -/
structure Transform (α : Type) where
  position : Vec3 α
  rotation : Vec3 α
  scale : Vec3 α
deriving DecidableEq

/-- Mesh with its pose (`IndexedVertexPositions`). -/
structure IndexedVertexPositions (α : Type) where
  indices : List Nat
  xyz_positions : List (Vec3 α)
  transform : Transform α
deriving DecidableEq

/-- Target of the pointer `selected_object`: `&cone_ivp` or `&cyl_ivp`. -/
inductive ObjectRef where
  | cone_ivp
  | cyl_ivp
deriving DecidableEq

/-- Size of `ltw_matrices` (`glm::mat4 ltw_matrices[1024]`). -/
abbrev CAPACITY : Nat := 1024

/-- The array `glm::mat4 ltw_matrices[1024]`. -/
abbrev MatrixTable (M : Type) := Mathlib.Vector M CAPACITY

/-- Array assignment `ltw_matrices[i] = m`. -/
def MatrixTable.store {M : Type} (t : MatrixTable M) (i : Fin CAPACITY) (m : M) : MatrixTable M :=
  Mathlib.Vector.set t i m

/-- Array read `ltw_matrices[i]`. -/
def MatrixTable.read {M : Type} (t : MatrixTable M) (i : Fin CAPACITY) : M :=
  Mathlib.Vector.get t i

/-- Collaborators that `main.cpp` only calls or names. -/
structure Ext (α M : Type) where
  /-- `Transform::get_transform_matrix()` -/
  get_transform_matrix : Transform α → M
  /-- `glm::mat4(1.0f)` -/
  identity : M
  /-- `colors.bisque4` -/
  bisque4 : Vec3 α
  /-- `colors.orange` -/
  orange : Vec3 α
  /-- `glm::vec3(.3, .2, .1)` -/
  rotation_a : Vec3 α
  /-- `glm::vec3(0, .3, .8)` -/
  rotation_b : Vec3 α

/-! ## OpenGL binding state and the picking texture -/

/-- `GL_FRAMEBUFFER_COMPLETE` -/
def GL_FRAMEBUFFER_COMPLETE : Nat := 0x8CD5

/-- Targets accepted by `glBindFramebuffer`. -/
inductive FramebufferTarget where
  | GL_FRAMEBUFFER
  | GL_DRAW_FRAMEBUFFER
  | GL_READ_FRAMEBUFFER
deriving DecidableEq

/-- Bindings of the GL context that `PickingTexture` touches. -/
structure GLState where
  draw_framebuffer : Nat
  read_framebuffer : Nat
  texture_2d : Nat
deriving DecidableEq

/-- `glBindFramebuffer(target, name)`: `GL_FRAMEBUFFER` sets both bindings. -/
def glBindFramebuffer (target : FramebufferTarget) (name : Nat) (gl : GLState) : GLState :=
  match target with
  | .GL_FRAMEBUFFER => { gl with draw_framebuffer := name, read_framebuffer := name }
  | .GL_DRAW_FRAMEBUFFER => { gl with draw_framebuffer := name }
  | .GL_READ_FRAMEBUFFER => { gl with read_framebuffer := name }

/-- `glBindTexture(GL_TEXTURE_2D, name)` -/
def glBindTexture2D (name : Nat) (gl : GLState) : GLState :=
  { gl with texture_2d := name }

/-- Private members of `PickingTexture`; all start at `0`. -/
structure PickingTexture where
  frame_buffer_gl_handle : Nat
  picking_texture_gl_handle : Nat
  depth_texture_gl_handle : Nat
deriving DecidableEq

/-- A default-constructed `PickingTexture`. -/
def PickingTexture.fresh : PickingTexture := ⟨0, 0, 0⟩

/-- The picking texture together with the context bindings: the state the
member functions of `PickingTexture` act on. -/
structure TargetState where
  picking_texture : PickingTexture
  gl : GLState
deriving DecidableEq

/-- Names handed out by `glGenFramebuffers` / `glGenTextures` in `initialize`. -/
structure GenNames where
  framebuffer : Nat
  picking_texture : Nat
  depth_texture : Nat
deriving DecidableEq

/-- `PickingTexture::initialize`.  `status` is what `glCheckFramebufferStatus`
answers; `Except.error c` stands for `exit(c)`.  Texture storage and
attachments do not influence control flow and are not tracked. -/
def PickingTexture.initialize (names : GenNames) (status : Nat) (s : TargetState) :
    Except Nat TargetState :=
  -- glGenFramebuffers / glBindFramebuffer(GL_FRAMEBUFFER, ...)
  let pt := { s.picking_texture with frame_buffer_gl_handle := names.framebuffer }
  let gl := glBindFramebuffer .GL_FRAMEBUFFER pt.frame_buffer_gl_handle s.gl
  -- colour texture
  let pt := { pt with picking_texture_gl_handle := names.picking_texture }
  let gl := glBindTexture2D pt.picking_texture_gl_handle gl
  -- depth texture
  let pt := { pt with depth_texture_gl_handle := names.depth_texture }
  let gl := glBindTexture2D pt.depth_texture_gl_handle gl
  if status ≠ GL_FRAMEBUFFER_COMPLETE then
    Except.error 1
  else
    let gl := glBindTexture2D 0 gl
    let gl := glBindFramebuffer .GL_FRAMEBUFFER 0 gl
    Except.ok { picking_texture := pt, gl := gl }

/-- `PickingTexture::enable_writing` -/
def PickingTexture.enable_writing (s : TargetState) : TargetState :=
  { s with gl := glBindFramebuffer .GL_DRAW_FRAMEBUFFER s.picking_texture.frame_buffer_gl_handle s.gl }

/-- `PickingTexture::disable_writing` -/
def PickingTexture.disable_writing (s : TargetState) : TargetState :=
  { s with gl := glBindFramebuffer .GL_DRAW_FRAMEBUFFER 0 s.gl }

/-- `PickingTexture::PixelInfo` -/
structure PixelInfo where
  object_id : Int
  draw_id : Int
  primitive_id : Int
deriving DecidableEq

/-- A texel of the `GL_RGB32UI` colour attachment. -/
structure Texel where
  r : Nat
  g : Nat
  b : Nat
deriving DecidableEq

/-- Reading a 32-bit unsigned word through an `int` field. -/
def as_int32 (u : Nat) : Int :=
  if u % 2 ^ 32 < 2 ^ 31 then ((u % 2 ^ 32 : Nat) : Int) else ((u % 2 ^ 32 : Nat) : Int) - 2 ^ 32

/-- `PickingTexture::read_pixel`.  `texels x y` is the content of the colour
attachment at pixel `(x, y)`. -/
def PickingTexture.read_pixel (texels : Nat → Nat → Texel) (x y : Nat) (s : TargetState) :
    PixelInfo × TargetState :=
  let gl := glBindFramebuffer .GL_READ_FRAMEBUFFER s.picking_texture.frame_buffer_gl_handle s.gl
  let t := texels x y
  let pixel : PixelInfo := ⟨as_int32 t.r, as_int32 t.g, as_int32 t.b⟩
  let gl := glBindFramebuffer .GL_READ_FRAMEBUFFER 0 gl
  (pixel, { s with gl := gl })

/-! ## Aim point -/

/-- Subtraction of `unsigned int`. -/
def u32_sub (a b : Nat) : Nat := (a % 2 ^ 32 + (2 ^ 32 - b % 2 ^ 32)) % 2 ^ 32

/-- Division of `unsigned int` by a non-zero constant. -/
def u32_div (a b : Nat) : Nat := (a % 2 ^ 32) / b

/-- `SCREEN_WIDTH` -/
def SCREEN_WIDTH : Nat := 640

/-- `SCREEN_HEIGHT` -/
def SCREEN_HEIGHT : Nat := 480

/-- Arguments of the `read_pixel` call in the frame loop for a screen of
`W x H`: `(center_x, SCREEN_HEIGHT - 1 - center_y)`. -/
def aim_point (W H : Nat) : Nat × Nat :=
  let center_x := u32_div W 2
  let center_y := u32_div H 2
  (center_x, u32_sub (u32_sub H 1) center_y)

/-! ## Draw requests -/

/-- One call of `queue_draw`, with its arguments in source order, on one of the
two batchers used by the frame loop. -/
inductive QueueDraw (α : Type) where
  /-- `cwl_v_transformation_ubos_1024_with_object_id_shader_batcher.queue_draw` -/
  | object_id_shader (object_id : Nat) (indices : List Nat) (attribute_1 : List Nat)
      (xyz_positions : List (Vec3 α)) (object_id_tags : List Nat)
  /-- `cwl_v_transformation_ubos_1024_with_colored_vertex_shader_batcher.queue_draw` -/
  | colored_vertex_shader (object_id : Nat) (indices : List Nat)
      (xyz_positions : List (Vec3 α)) (colors : List (Vec3 α)) (object_id_tags : List Nat)
deriving DecidableEq

/-- First argument of the call. -/
def QueueDraw.object_id {α : Type} : QueueDraw α → Nat
  | .object_id_shader i _ _ _ _ => i
  | .colored_vertex_shader i _ _ _ _ => i

/-- The position array of the call. -/
def QueueDraw.xyz_positions {α : Type} : QueueDraw α → List (Vec3 α)
  | .object_id_shader _ _ _ p _ => p
  | .colored_vertex_shader _ _ p _ _ => p

/-- Last argument of the call: the per-vertex object-id tags. -/
def QueueDraw.object_id_tags {α : Type} : QueueDraw α → List Nat
  | .object_id_shader _ _ _ _ t => t
  | .colored_vertex_shader _ _ _ _ t => t

/-- Lengths of all per-vertex arrays of the call, in argument order. -/
def QueueDraw.attribute_lengths {α : Type} : QueueDraw α → List Nat
  | .object_id_shader _ _ a p t => [a.length, p.length, t.length]
  | .colored_vertex_shader _ _ p c t => [p.length, c.length, t.length]

/-! ## Program state and the frame loop -/

/-- Local variables of `main` that the frame loop reads or writes. -/
structure Scene (α M : Type) where
  cone_ivp : IndexedVertexPositions α
  cyl_ivp : IndexedVertexPositions α
  selected_object : Option ObjectRef
  ltw_matrices : MatrixTable M
  /-- content of the uniform buffer `ltw_matrices_gl_name` -/
  ubo : MatrixTable M
  /-- `picking_texture` and the framebuffer/texture bindings -/
  target : TargetState

/-- What the platform contributes to one iteration. -/
structure FrameInput (α : Type) where
  /-- `input_state.is_pressed(EKey::LEFT_MOUSE_BUTTON)` -/
  left_mouse_button : Bool
  /-- `input_state.is_pressed(EKey::RIGHT_MOUSE_BUTTON)` -/
  right_mouse_button : Bool
  /-- `fps_camera.transform.position` after `process_input` -/
  camera_position : Vec3 α
  /-- `fps_camera.transform.compute_forward_vector()` -/
  camera_forward : Vec3 α
  /-- colour attachment of the picking framebuffer after the id-pass -/
  texels : Nat → Nat → Texel

/-- `float cam_reach = 3;` -/
def cam_reach {α : Type} [OfNat α 3] : α := 3

/-- The object a `selected_object` pointer refers to. -/
def Scene.deref {α M : Type} (s : Scene α M) : ObjectRef → IndexedVertexPositions α
  | .cone_ivp => s.cone_ivp
  | .cyl_ivp => s.cyl_ivp

/-- The loop `for (i = 0; i < 1024; ++i) ltw_matrices[i] = glm::mat4(1.0f)`. -/
def fill_identity {M : Type} (identity : M) (t : MatrixTable M) : MatrixTable M :=
  (List.finRange CAPACITY).foldl (fun acc i => MatrixTable.store acc i identity) t

/-- Everything `main` does from the declaration of `ltw_matrices` to the
declaration of `picking_texture`.  `uninitialised` is the content of the array
before the fill loop; `cone_mesh` and `cyl_mesh` are the results of
`generate_cone` and `generate_cylinder`. -/
def startup {α M : Type} (ext : Ext α M) (uninitialised : MatrixTable M)
    (cone_mesh cyl_mesh : IndexedVertexPositions α) : Scene α M :=
  let ltw_matrices := fill_identity ext.identity uninitialised
  -- glBufferData(GL_UNIFORM_BUFFER, sizeof(ltw_matrices), ltw_matrices, GL_STATIC_DRAW)
  let ubo := ltw_matrices
  let cone_ivp := { cone_mesh with transform := { cone_mesh.transform with rotation := ext.rotation_a } }
  let ltw_matrices := MatrixTable.store ltw_matrices 1 (ext.get_transform_matrix cone_ivp.transform)
  let cyl_ivp := cyl_mesh
  let cone_ivp := { cone_ivp with transform := { cone_ivp.transform with rotation := ext.rotation_b } }
  let ltw_matrices := MatrixTable.store ltw_matrices 2 (ext.get_transform_matrix cyl_ivp.transform)
  { cone_ivp := cone_ivp
    cyl_ivp := cyl_ivp
    selected_object := none
    ltw_matrices := ltw_matrices
    ubo := ubo
    target := { picking_texture := PickingTexture.fresh, gl := ⟨0, 0, 0⟩ } }

/-- The two assignments to `ltw_matrices[1]` and `ltw_matrices[2]` at the top of
the loop body. -/
def refresh_ltw {α M : Type} (ext : Ext α M) (s : Scene α M) : Scene α M :=
  let t := MatrixTable.store s.ltw_matrices 1 (ext.get_transform_matrix s.cone_ivp.transform)
  let t := MatrixTable.store t 2 (ext.get_transform_matrix s.cyl_ivp.transform)
  { s with ltw_matrices := t }

/-- `std::vector<unsigned int> cone_object_ids(cone_ivp.xyz_positions.size(), 1)` -/
def cone_object_ids {α M : Type} (s : Scene α M) : List Nat :=
  List.replicate s.cone_ivp.xyz_positions.length 1

/-- `std::vector<unsigned int> cyl_object_ids(cyl_ivp.xyz_positions.size(), 2)` -/
def cyl_object_ids {α M : Type} (s : Scene α M) : List Nat :=
  List.replicate s.cyl_ivp.xyz_positions.length 2

/-- The `queue_draw` calls of the id-pass. -/
def id_pass_draws {α M : Type} (s : Scene α M) : List (QueueDraw α) :=
  [ .object_id_shader 0 s.cone_ivp.indices (cone_object_ids s) s.cone_ivp.xyz_positions
      (cone_object_ids s),
    .object_id_shader 1 s.cyl_ivp.indices (cyl_object_ids s) s.cyl_ivp.xyz_positions
      (cyl_object_ids s) ]

/-- The id-pass: `enable_writing`, the queued draws and their flush,
`disable_writing`. -/
def id_pass {α M : Type} (s : Scene α M) : Scene α M :=
  let target := PickingTexture.enable_writing s.target
  let target := PickingTexture.disable_writing target
  { s with target := target }

/-- The block guarded by `is_pressed(EKey::LEFT_MOUSE_BUTTON)`. -/
def pick {α M : Type} (inp : FrameInput α) (s : Scene α M) : Scene α M :=
  if inp.left_mouse_button then
    -- center_x, SCREEN_HEIGHT - 1 - center_y
    let aim := aim_point SCREEN_WIDTH SCREEN_HEIGHT
    let r := PickingTexture.read_pixel inp.texels aim.1 aim.2 s.target
    let clicked_pixel := r.1
    let selected_object :=
      if clicked_pixel.object_id = 1 then some ObjectRef.cone_ivp else s.selected_object
    let selected_object :=
      if clicked_pixel.object_id = 2 then some ObjectRef.cyl_ivp else selected_object
    { s with target := r.2, selected_object := selected_object }
  else s

/-- The block guarded by `is_pressed(EKey::RIGHT_MOUSE_BUTTON)`. -/
def deselect {α M : Type} (inp : FrameInput α) (s : Scene α M) : Scene α M :=
  if inp.right_mouse_button then { s with selected_object := none } else s

/-- Assignment to `transform.position` of an object. -/
def IndexedVertexPositions.set_position {α : Type} (o : IndexedVertexPositions α)
    (p : Vec3 α) : IndexedVertexPositions α :=
  { o with transform := { o.transform with position := p } }

/-- The block guarded by `selected_object != nullptr`. -/
def track {α M : Type} [Add α] [Mul α] [OfNat α 3] (inp : FrameInput α) (s : Scene α M) :
    Scene α M :=
  let held := Vec3.add inp.camera_position (Vec3.smul cam_reach inp.camera_forward)
  match s.selected_object with
  | none => s
  | some .cone_ivp => { s with cone_ivp := s.cone_ivp.set_position held }
  | some .cyl_ivp => { s with cyl_ivp := s.cyl_ivp.set_position held }

/-- The `queue_draw` calls of the coloured pass; `cone_ids` and `cyl_ids` are
the vectors built before the id-pass. -/
def colored_pass_draws {α M : Type} (ext : Ext α M) (cone_ids cyl_ids : List Nat)
    (s : Scene α M) : List (QueueDraw α) :=
  let cs := List.replicate s.cone_ivp.xyz_positions.length ext.bisque4
  let cyl_cs := List.replicate s.cyl_ivp.xyz_positions.length ext.orange
  [ .colored_vertex_shader 1 s.cone_ivp.indices s.cone_ivp.xyz_positions cs cone_ids,
    .colored_vertex_shader 2 s.cyl_ivp.indices s.cyl_ivp.xyz_positions cyl_cs cyl_ids ]

/-- `glBufferSubData(GL_UNIFORM_BUFFER, 0, sizeof(ltw_matrices), ltw_matrices)` -/
def upload {α M : Type} (s : Scene α M) : Scene α M :=
  { s with ubo := s.ltw_matrices }

/-- What one iteration leaves behind. -/
structure FrameResult (α M : Type) where
  /-- program state at the end of the iteration -/
  scene : Scene α M
  /-- program state when the coloured pass calls `draw_everything` -/
  at_colored_flush : Scene α M
  /-- all `queue_draw` calls of the iteration, in order -/
  queue_draws : List (QueueDraw α)

/-- One iteration of the `while` loop of `main`. -/
def frame {α M : Type} [Add α] [Mul α] [OfNat α 3] (ext : Ext α M) (inp : FrameInput α)
    (s : Scene α M) : FrameResult α M :=
  let s1 := refresh_ltw ext s
  let cone_ids := cone_object_ids s1
  let cyl_ids := cyl_object_ids s1
  let id_draws := id_pass_draws s1
  let s2 := id_pass s1
  let s3 := pick inp s2
  let s4 := deselect inp s3
  let s5 := track inp s4
  let colored_draws := colored_pass_draws ext cone_ids cyl_ids s5
  { scene := upload s5
    at_colored_flush := s5
    queue_draws := id_draws ++ colored_draws }

/-- The loop: one `frame` per element of `inputs`, until the window closes. -/
def run_frames {α M : Type} [Add α] [Mul α] [OfNat α 3] (ext : Ext α M) :
    List (FrameInput α) → Scene α M → Scene α M
  | [], s => s
  | inp :: rest, s => run_frames ext rest (frame ext inp s).scene

/-- Everything the platform contributes to one run of the program. -/
structure MainEnv (α M : Type) where
  uninitialised : MatrixTable M
  cone_mesh : IndexedVertexPositions α
  cyl_mesh : IndexedVertexPositions α
  names : GenNames
  /-- answer of `glCheckFramebufferStatus` -/
  framebuffer_status : Nat
  /-- one entry per iteration before `glfwWindowShouldClose` turns true -/
  frames : List (FrameInput α)

/-- How a run ends. -/
structure ProcessResult (α M : Type) where
  exit_status : Nat
  frames_entered : Nat
  final_scene : Option (Scene α M)

/-- `EXIT_SUCCESS` -/
def EXIT_SUCCESS : Nat := 0

/-- `main` from the declaration of `ltw_matrices` on. -/
def main_program {α M : Type} [Add α] [Mul α] [OfNat α 3] (ext : Ext α M) (env : MainEnv α M) :
    ProcessResult α M :=
  let s := startup ext env.uninitialised env.cone_mesh env.cyl_mesh
  match PickingTexture.initialize env.names env.framebuffer_status s.target with
  | .error code => { exit_status := code, frames_entered := 0, final_scene := none }
  | .ok target =>
    let s := run_frames ext env.frames { s with target := target }
    { exit_status := EXIT_SUCCESS, frames_entered := env.frames.length, final_scene := some s }

/-! ## Concrete data for evaluating the model -/

/-- A stand-in for `get_transform_matrix` over integers, column-major: scale on
the diagonal, position in the last column, rotation left out. -/
def sample_matrix (t : Transform Int) : List Int :=
  [t.scale.x, 0, 0, 0, 0, t.scale.y, 0, 0, 0, 0, t.scale.z, 0,
   t.position.x, t.position.y, t.position.z, 1]

/-- Integer instance of the collaborators (rotation literals scaled by ten). -/
def sample_ext : Ext Int (List Int) where
  get_transform_matrix := sample_matrix
  identity := [1, 0, 0, 0, 0, 1, 0, 0, 0, 0, 1, 0, 0, 0, 0, 1]
  bisque4 := ⟨139, 125, 107⟩
  orange := ⟨255, 165, 0⟩
  rotation_a := ⟨3, 2, 1⟩
  rotation_b := ⟨0, 3, 8⟩

/-- A triangle at the origin with unit scale. -/
def sample_mesh : IndexedVertexPositions Int where
  indices := [0, 1, 2]
  xyz_positions := [⟨0, 0, 0⟩, ⟨1, 0, 0⟩, ⟨0, 1, 0⟩]
  transform := { position := ⟨0, 0, 0⟩, rotation := ⟨0, 0, 0⟩, scale := ⟨1, 1, 1⟩ }

/-- Texture in which every texel carries object id `id`. -/
def uniform_texels (id : Nat) : Nat → Nat → Texel := fun _ _ => ⟨id, 0, 0⟩

/-- A click with the camera at `(1, 2, 3)` looking along `z`, the aim point
covered by object `id`. -/
def sample_click (id : Nat) : FrameInput Int where
  left_mouse_button := true
  right_mouse_button := false
  camera_position := ⟨1, 2, 3⟩
  camera_forward := ⟨0, 0, 1⟩
  texels := uniform_texels id

/-- A frame in which only the right mouse button is pressed. -/
def sample_release : FrameInput Int where
  left_mouse_button := false
  right_mouse_button := true
  camera_position := ⟨1, 2, 3⟩
  camera_forward := ⟨0, 0, 1⟩
  texels := uniform_texels 0

/-- A frame with both buttons pressed and the aim point on object 1. -/
def sample_both : FrameInput Int where
  left_mouse_button := true
  right_mouse_button := true
  camera_position := ⟨1, 2, 3⟩
  camera_forward := ⟨0, 0, 1⟩
  texels := uniform_texels 1

/-- State in front of the loop for the sample data, picking texture
initialised with names 7, 8, 9. -/
def sample_scene : Scene Int (List Int) :=
  { startup sample_ext (Mathlib.Vector.replicate CAPACITY []) sample_mesh sample_mesh with
    target := { picking_texture := ⟨7, 8, 9⟩, gl := ⟨0, 0, 0⟩ } }

/-- A complete run description: `k` clicks on object 1. -/
def sample_env (status : Nat) (k : Nat) : MainEnv Int (List Int) where
  uninitialised := Mathlib.Vector.replicate CAPACITY []
  cone_mesh := sample_mesh
  cyl_mesh := sample_mesh
  names := ⟨7, 8, 9⟩
  framebuffer_status := status
  frames := List.replicate k (sample_click 1)

/-! ## Predicates used in the statements -/

/-- Every slot other than 1 and 2 holds the identity, in the array and in the
uniform buffer. -/
def SlotsIdentity {α M : Type} (ext : Ext α M) (s : Scene α M) : Prop :=
  ∀ i : Fin CAPACITY, i ≠ 1 → i ≠ 2 →
    s.ltw_matrices.read i = ext.identity ∧ s.ubo.read i = ext.identity

/-! ## Basic facts about the table -/

theorem MatrixTable.read_store_same {M : Type} (t : MatrixTable M) (i : Fin CAPACITY) (m : M) :
    (t.store i m).read i = m := by
  unfold MatrixTable.store MatrixTable.read
  exact Mathlib.Vector.get_set_same t i m

theorem MatrixTable.read_store_ne {M : Type} (t : MatrixTable M) {i j : Fin CAPACITY}
    (h : j ≠ i) (m : M) : (t.store i m).read j = t.read j := by
  unfold MatrixTable.store MatrixTable.read
  exact Mathlib.Vector.get_set_of_ne (Ne.symm h) m

theorem foldl_store_read {M : Type} (identity : M) (l : List (Fin CAPACITY))
    (t : MatrixTable M) (i : Fin CAPACITY) :
    (l.foldl (fun acc k => MatrixTable.store acc k identity) t).read i
      = if i ∈ l then identity else t.read i := by
  induction l generalizing t with
  | nil => simp
  | cons a l ih =>
    rw [List.foldl_cons, ih]
    by_cases hl : i ∈ l
    · simp [hl]
    · by_cases ha : i = a
      · subst ha
        simp [hl, MatrixTable.read_store_same]
      · simp [hl, ha, MatrixTable.read_store_ne _ ha]

theorem fill_identity_read {M : Type} (identity : M) (t : MatrixTable M) (i : Fin CAPACITY) :
    (fill_identity identity t).read i = identity := by
  unfold fill_identity
  rw [foldl_store_read]
  simp [List.mem_finRange]

/-! ## Facts about the phases of one iteration -/

theorem frame_scene {α M : Type} [Add α] [Mul α] [OfNat α 3] (ext : Ext α M) (inp : FrameInput α) (s : Scene α M) :
    (frame ext inp s).scene
      = upload (track inp (deselect inp (pick inp (id_pass (refresh_ltw ext s))))) := rfl

theorem frame_at_colored_flush {α M : Type} [Add α] [Mul α] [OfNat α 3] (ext : Ext α M) (inp : FrameInput α) (s : Scene α M) :
    (frame ext inp s).at_colored_flush
      = track inp (deselect inp (pick inp (id_pass (refresh_ltw ext s)))) := rfl

theorem track_selected {α M : Type} [Add α] [Mul α] [OfNat α 3] (inp : FrameInput α) (s : Scene α M) :
    (track inp s).selected_object = s.selected_object := by
  unfold track
  rcases h : s.selected_object with _ | o
  · simp [h]
  · cases o <;> simp [h]

theorem track_ltw {α M : Type} [Add α] [Mul α] [OfNat α 3] (inp : FrameInput α) (s : Scene α M) :
    (track inp s).ltw_matrices = s.ltw_matrices := by
  unfold track
  rcases h : s.selected_object with _ | o
  · simp
  · cases o <;> simp

theorem track_ubo {α M : Type} [Add α] [Mul α] [OfNat α 3] (inp : FrameInput α) (s : Scene α M) : (track inp s).ubo = s.ubo := by
  unfold track
  rcases h : s.selected_object with _ | o
  · simp
  · cases o <;> simp

theorem pick_ltw {α M : Type} (inp : FrameInput α) (s : Scene α M) :
    (pick inp s).ltw_matrices = s.ltw_matrices := by
  unfold pick
  split <;> rfl

theorem pick_cone {α M : Type} (inp : FrameInput α) (s : Scene α M) : (pick inp s).cone_ivp = s.cone_ivp := by
  unfold pick
  split <;> rfl

theorem pick_cyl {α M : Type} (inp : FrameInput α) (s : Scene α M) : (pick inp s).cyl_ivp = s.cyl_ivp := by
  unfold pick
  split <;> rfl

theorem deselect_ltw {α M : Type} (inp : FrameInput α) (s : Scene α M) :
    (deselect inp s).ltw_matrices = s.ltw_matrices := by
  unfold deselect
  split <;> rfl

theorem deselect_cone {α M : Type} (inp : FrameInput α) (s : Scene α M) :
    (deselect inp s).cone_ivp = s.cone_ivp := by
  unfold deselect
  split <;> rfl

theorem deselect_cyl {α M : Type} (inp : FrameInput α) (s : Scene α M) :
    (deselect inp s).cyl_ivp = s.cyl_ivp := by
  unfold deselect
  split <;> rfl

theorem deselect_pressed {α M : Type} (inp : FrameInput α) (s : Scene α M)
    (h : inp.right_mouse_button = true) : (deselect inp s).selected_object = none := by
  simp [deselect, h]

theorem deselect_released {α M : Type} (inp : FrameInput α) (s : Scene α M)
    (h : inp.right_mouse_button = false) : deselect inp s = s := by
  simp [deselect, h]

theorem frame_ltw {α M : Type} [Add α] [Mul α] [OfNat α 3] (ext : Ext α M) (inp : FrameInput α) (s : Scene α M) :
    (frame ext inp s).scene.ltw_matrices = (refresh_ltw ext s).ltw_matrices := by
  rw [frame_scene]
  show (track inp _).ltw_matrices = _
  rw [track_ltw, deselect_ltw, pick_ltw]
  rfl

theorem frame_flush_ltw {α M : Type} [Add α] [Mul α] [OfNat α 3] (ext : Ext α M) (inp : FrameInput α) (s : Scene α M) :
    (frame ext inp s).at_colored_flush.ltw_matrices = (refresh_ltw ext s).ltw_matrices := by
  rw [frame_at_colored_flush, track_ltw, deselect_ltw, pick_ltw]
  rfl

theorem frame_ubo {α M : Type} [Add α] [Mul α] [OfNat α 3] (ext : Ext α M) (inp : FrameInput α) (s : Scene α M) :
    (frame ext inp s).scene.ubo = (frame ext inp s).scene.ltw_matrices := rfl

theorem frame_flush_ubo {α M : Type} [Add α] [Mul α] [OfNat α 3] (ext : Ext α M) (inp : FrameInput α) (s : Scene α M) :
    (frame ext inp s).at_colored_flush.ubo = s.ubo := by
  rw [frame_at_colored_flush, track_ubo]
  unfold deselect pick
  split <;> split <;> rfl

theorem refresh_read_one {α M : Type} (ext : Ext α M) (s : Scene α M) :
    (refresh_ltw ext s).ltw_matrices.read 1 = ext.get_transform_matrix s.cone_ivp.transform := by
  unfold refresh_ltw
  simp only
  rw [MatrixTable.read_store_ne _ (by decide), MatrixTable.read_store_same]

theorem refresh_read_two {α M : Type} (ext : Ext α M) (s : Scene α M) :
    (refresh_ltw ext s).ltw_matrices.read 2 = ext.get_transform_matrix s.cyl_ivp.transform := by
  unfold refresh_ltw
  simp only
  rw [MatrixTable.read_store_same]

theorem refresh_read_other {α M : Type} (ext : Ext α M) (s : Scene α M) (i : Fin CAPACITY)
    (h1 : i ≠ 1) (h2 : i ≠ 2) :
    (refresh_ltw ext s).ltw_matrices.read i = s.ltw_matrices.read i := by
  unfold refresh_ltw
  simp only
  rw [MatrixTable.read_store_ne _ h2, MatrixTable.read_store_ne _ h1]

theorem run_frames_append {α M : Type} [Add α] [Mul α] [OfNat α 3] (ext : Ext α M) (xs ys : List (FrameInput α)) (s : Scene α M) :
    run_frames ext (xs ++ ys) s = run_frames ext ys (run_frames ext xs s) := by
  induction xs generalizing s with
  | nil => rfl
  | cons x xs ih => simp [run_frames, ih]

theorem pick_selected {α M : Type} (inp : FrameInput α) (s : Scene α M)
    (hl : inp.left_mouse_button = true) :
    (pick inp s).selected_object =
      if (PickingTexture.read_pixel inp.texels (aim_point SCREEN_WIDTH SCREEN_HEIGHT).1
            (aim_point SCREEN_WIDTH SCREEN_HEIGHT).2 s.target).1.object_id = 2 then
        some ObjectRef.cyl_ivp
      else if (PickingTexture.read_pixel inp.texels (aim_point SCREEN_WIDTH SCREEN_HEIGHT).1
            (aim_point SCREEN_WIDTH SCREEN_HEIGHT).2 s.target).1.object_id = 1 then
        some ObjectRef.cone_ivp
      else s.selected_object := by
  simp [pick, hl]

theorem frame_selected {α M : Type} [Add α] [Mul α] [OfNat α 3] (ext : Ext α M)
    (inp : FrameInput α) (s : Scene α M) :
    (frame ext inp s).scene.selected_object
      = (deselect inp (pick inp (id_pass (refresh_ltw ext s)))).selected_object := by
  rw [frame_scene]
  show (track inp _).selected_object = _
  rw [track_selected]

/-! ## Selection -/

/-- C1. In a frame with the left mouse button pressed and the right one not,
the pixel read back at the aim point decides the selection: object id 1 selects
the cone, object id 2 selects the cylinder, and any other id (the background id
0 among them) leaves the selection as it was before the frame. -/
theorem pick_resolution {α M : Type} [Add α] [Mul α] [OfNat α 3] (ext : Ext α M)
    (inp : FrameInput α) (s : Scene α M)
    (hl : inp.left_mouse_button = true) (hr : inp.right_mouse_button = false) :
    let clicked := (PickingTexture.read_pixel inp.texels (aim_point SCREEN_WIDTH SCREEN_HEIGHT).1
      (aim_point SCREEN_WIDTH SCREEN_HEIGHT).2 (id_pass (refresh_ltw ext s)).target).1
    (clicked.object_id = 1 → (frame ext inp s).scene.selected_object = some ObjectRef.cone_ivp) ∧
    (clicked.object_id = 2 → (frame ext inp s).scene.selected_object = some ObjectRef.cyl_ivp) ∧
    (clicked.object_id ≠ 1 → clicked.object_id ≠ 2 →
      (frame ext inp s).scene.selected_object = s.selected_object) ∧
    (clicked.object_id = 0 → (frame ext inp s).scene.selected_object = s.selected_object) := by
  intro clicked
  have key : (frame ext inp s).scene.selected_object =
      if clicked.object_id = 2 then some ObjectRef.cyl_ivp
      else if clicked.object_id = 1 then some ObjectRef.cone_ivp
      else s.selected_object := by
    rw [frame_selected, deselect_released _ _ hr, pick_selected _ _ hl]
    rfl
  refine ⟨fun h => ?_, fun h => ?_, fun h1 h2 => ?_, fun h => ?_⟩
  · rw [key, if_neg (by rw [h]; decide), if_pos h]
  · rw [key, if_pos h]
  · rw [key, if_neg h2, if_neg h1]
  · rw [key, if_neg (by rw [h]; decide), if_neg (by rw [h]; decide)]

theorem pick_resolution_witness :
    (sample_click 1).left_mouse_button = true ∧ (sample_click 1).right_mouse_button = false ∧
    (frame sample_ext (sample_click 1) sample_scene).scene.selected_object
      = some ObjectRef.cone_ivp :=
  ⟨rfl, rfl, (pick_resolution sample_ext (sample_click 1) sample_scene rfl rfl).1 (by decide)⟩

/-- C2. Whenever a frame ends with an object selected, that object's position
after the frame is `camera_position + 3 * camera_forward`, computed with the
scalar operations of the vector type; the right-hand side does not mention the
scene before the frame, so the result does not depend on the prior position. -/
theorem held_object_tracks_camera {α M : Type} [Add α] [Mul α] [OfNat α 3] (ext : Ext α M)
    (inp : FrameInput α) (s : Scene α M) (o : ObjectRef)
    (h : (frame ext inp s).scene.selected_object = some o) :
    ((frame ext inp s).scene.deref o).transform.position
      = Vec3.add inp.camera_position (Vec3.smul 3 inp.camera_forward) := by
  rw [frame_selected] at h
  rw [frame_scene]
  generalize deselect inp (pick inp (id_pass (refresh_ltw ext s))) = s4 at h ⊢
  cases o <;>
    simp [upload, track, h, Scene.deref, IndexedVertexPositions.set_position, cam_reach]

theorem held_object_tracks_camera_witness :
    (frame sample_ext (sample_click 2) sample_scene).scene.selected_object
      = some ObjectRef.cyl_ivp ∧
    ((frame sample_ext (sample_click 2) sample_scene).scene.deref
        ObjectRef.cyl_ivp).transform.position
      = Vec3.add (sample_click 2).camera_position (Vec3.smul 3 (sample_click 2).camera_forward) :=
  ⟨by decide,
    held_object_tracks_camera sample_ext (sample_click 2) sample_scene ObjectRef.cyl_ivp
      (by decide)⟩

/-- C3. In a frame with the right mouse button pressed the selection is empty
afterwards, for every prior selection, every state of the left button and every
texel content; the cone and the cylinder leave the frame exactly as they entered
it, so the tracking step wrote no position; and any sequence of frames that ends
with such a frame (for instance one that selected object 1 earlier) ends with
nothing selected. -/
theorem deselect_clears_selection {α M : Type} [Add α] [Mul α] [OfNat α 3] (ext : Ext α M)
    (inp : FrameInput α) (s : Scene α M) (earlier : List (FrameInput α))
    (hr : inp.right_mouse_button = true) :
    (frame ext inp s).scene.selected_object = none ∧
    (frame ext inp s).scene.cone_ivp = s.cone_ivp ∧
    (frame ext inp s).scene.cyl_ivp = s.cyl_ivp ∧
    (run_frames ext (earlier ++ [inp]) s).selected_object = none := by
  have sel : ∀ s0 : Scene α M, (frame ext inp s0).scene.selected_object = none := by
    intro s0
    rw [frame_selected, deselect_pressed _ _ hr]
  have hnone : (deselect inp (pick inp (id_pass (refresh_ltw ext s)))).selected_object = none :=
    deselect_pressed _ _ hr
  have htrack : track inp (deselect inp (pick inp (id_pass (refresh_ltw ext s))))
      = deselect inp (pick inp (id_pass (refresh_ltw ext s))) := by
    simp [track, hnone]
  refine ⟨sel s, ?_, ?_, ?_⟩
  · rw [frame_scene, htrack]
    show (deselect inp _).cone_ivp = _
    rw [deselect_cone, pick_cone]
    rfl
  · rw [frame_scene, htrack]
    show (deselect inp _).cyl_ivp = _
    rw [deselect_cyl, pick_cyl]
    rfl
  · rw [run_frames_append]
    exact sel _

theorem deselect_clears_selection_witness :
    sample_release.right_mouse_button = true ∧
    (frame sample_ext (sample_click 1) sample_scene).scene.selected_object
      = some ObjectRef.cone_ivp ∧
    (run_frames sample_ext ([sample_click 1] ++ [sample_release]) sample_scene).selected_object
      = none :=
  ⟨rfl, by decide,
    (deselect_clears_selection sample_ext sample_release sample_scene [sample_click 1] rfl).2.2.2⟩

/-! ## The matrix table across a frame -/

/-- C4, as stated, fails: after the first click on the cone the uploaded slot 1
(and the slot at the coloured flush) is not the matrix of the cone's current
transform, because the cone was moved after the slot had been written. -/
theorem table_coherence_counterexample :
    (frame sample_ext (sample_click 1) sample_scene).scene.selected_object
      = some ObjectRef.cone_ivp ∧
    (frame sample_ext (sample_click 1) sample_scene).scene.ubo.read 1
      ≠ sample_ext.get_transform_matrix
          (frame sample_ext (sample_click 1) sample_scene).scene.cone_ivp.transform ∧
    (frame sample_ext (sample_click 1) sample_scene).at_colored_flush.ltw_matrices.read 1
      ≠ sample_ext.get_transform_matrix
          (frame sample_ext (sample_click 1) sample_scene).at_colored_flush.cone_ivp.transform := by
  refine ⟨by decide, ?_, ?_⟩
  · rw [frame_ubo, frame_ltw, refresh_read_one]
    decide
  · rw [frame_flush_ltw, refresh_read_one]
    decide

/-- C4, amended. Slots 1 and 2 are written at the top of the frame only. At the
coloured flush and in the table uploaded at the end of the frame, slot 1 is the
matrix of the cone's transform as it entered the frame and slot 2 that of the
cylinder's transform as it entered the frame. An object that is not selected at
the end of the frame keeps its transform, so for it the slot is the matrix of
its current transform. -/
theorem table_holds_frame_start_transforms {α M : Type} [Add α] [Mul α] [OfNat α 3]
    (ext : Ext α M) (inp : FrameInput α) (s : Scene α M) :
    (frame ext inp s).at_colored_flush.ltw_matrices.read 1
      = ext.get_transform_matrix s.cone_ivp.transform ∧
    (frame ext inp s).at_colored_flush.ltw_matrices.read 2
      = ext.get_transform_matrix s.cyl_ivp.transform ∧
    (frame ext inp s).scene.ubo.read 1 = ext.get_transform_matrix s.cone_ivp.transform ∧
    (frame ext inp s).scene.ubo.read 2 = ext.get_transform_matrix s.cyl_ivp.transform ∧
    ((frame ext inp s).scene.selected_object ≠ some ObjectRef.cone_ivp →
      (frame ext inp s).scene.ubo.read 1
        = ext.get_transform_matrix (frame ext inp s).scene.cone_ivp.transform) ∧
    ((frame ext inp s).scene.selected_object ≠ some ObjectRef.cyl_ivp →
      (frame ext inp s).scene.ubo.read 2
        = ext.get_transform_matrix (frame ext inp s).scene.cyl_ivp.transform) := by
  have hu1 : (frame ext inp s).scene.ubo.read 1
      = ext.get_transform_matrix s.cone_ivp.transform := by
    rw [frame_ubo, frame_ltw, refresh_read_one]
  have hu2 : (frame ext inp s).scene.ubo.read 2
      = ext.get_transform_matrix s.cyl_ivp.transform := by
    rw [frame_ubo, frame_ltw, refresh_read_two]
  have hcone : ∀ s4 : Scene α M, s4.selected_object ≠ some ObjectRef.cone_ivp →
      (track inp s4).cone_ivp = s4.cone_ivp := by
    intro s4 h
    unfold track
    rcases hs : s4.selected_object with _ | o
    · simp
    · cases o
      · exact absurd hs h
      · simp
  have hcyl : ∀ s4 : Scene α M, s4.selected_object ≠ some ObjectRef.cyl_ivp →
      (track inp s4).cyl_ivp = s4.cyl_ivp := by
    intro s4 h
    unfold track
    rcases hs : s4.selected_object with _ | o
    · simp
    · cases o
      · simp
      · exact absurd hs h
  refine ⟨?_, ?_, hu1, hu2, fun h => ?_, fun h => ?_⟩
  · rw [frame_flush_ltw, refresh_read_one]
  · rw [frame_flush_ltw, refresh_read_two]
  · rw [hu1]
    rw [frame_selected] at h
    rw [frame_scene]
    show _ = ext.get_transform_matrix (track inp _).cone_ivp.transform
    rw [hcone _ h, deselect_cone, pick_cone]
    rfl
  · rw [hu2]
    rw [frame_selected] at h
    rw [frame_scene]
    show _ = ext.get_transform_matrix (track inp _).cyl_ivp.transform
    rw [hcyl _ h, deselect_cyl, pick_cyl]
    rfl

theorem table_holds_frame_start_transforms_witness :
    (frame sample_ext (sample_click 1) sample_scene).scene.selected_object
      ≠ some ObjectRef.cyl_ivp ∧
    (frame sample_ext (sample_click 1) sample_scene).scene.ubo.read 2
      = sample_ext.get_transform_matrix
          (frame sample_ext (sample_click 1) sample_scene).scene.cyl_ivp.transform :=
  ⟨by decide,
    (table_holds_frame_start_transforms sample_ext (sample_click 1) sample_scene).2.2.2.2.2
      (by decide)⟩

/-! ## Draw requests of a frame -/

theorem frame_queue_draws {α M : Type} [Add α] [Mul α] [OfNat α 3] (ext : Ext α M)
    (inp : FrameInput α) (s : Scene α M) :
    (frame ext inp s).queue_draws
      = id_pass_draws (refresh_ltw ext s)
        ++ colored_pass_draws ext (cone_object_ids (refresh_ltw ext s))
            (cyl_object_ids (refresh_ltw ext s)) (frame ext inp s).at_colored_flush := rfl

theorem id_pass_draws_first_arguments {α M : Type} (s : Scene α M) :
    (id_pass_draws s).map QueueDraw.object_id = [0, 1] ∧
    (id_pass_draws s).map QueueDraw.object_id_tags
      = [List.replicate s.cone_ivp.xyz_positions.length 1,
         List.replicate s.cyl_ivp.xyz_positions.length 2] := by
  constructor <;> rfl

theorem track_cone_mesh {α M : Type} [Add α] [Mul α] [OfNat α 3] (inp : FrameInput α)
    (s : Scene α M) :
    (track inp s).cone_ivp.indices = s.cone_ivp.indices ∧
    (track inp s).cone_ivp.xyz_positions = s.cone_ivp.xyz_positions := by
  unfold track
  rcases h : s.selected_object with _ | o
  · simp
  · cases o <;> simp [IndexedVertexPositions.set_position]

theorem track_cyl_mesh {α M : Type} [Add α] [Mul α] [OfNat α 3] (inp : FrameInput α)
    (s : Scene α M) :
    (track inp s).cyl_ivp.indices = s.cyl_ivp.indices ∧
    (track inp s).cyl_ivp.xyz_positions = s.cyl_ivp.xyz_positions := by
  unfold track
  rcases h : s.selected_object with _ | o
  · simp
  · cases o <;> simp [IndexedVertexPositions.set_position]

/-- The four `queue_draw` calls of any frame, spelled out: meshes are those the
scene entered the frame with. -/
theorem frame_queue_draws_explicit {α M : Type} [Add α] [Mul α] [OfNat α 3] (ext : Ext α M)
    (inp : FrameInput α) (s : Scene α M) :
    (frame ext inp s).queue_draws =
      [ QueueDraw.object_id_shader 0 s.cone_ivp.indices
          (List.replicate s.cone_ivp.xyz_positions.length 1) s.cone_ivp.xyz_positions
          (List.replicate s.cone_ivp.xyz_positions.length 1),
        QueueDraw.object_id_shader 1 s.cyl_ivp.indices
          (List.replicate s.cyl_ivp.xyz_positions.length 2) s.cyl_ivp.xyz_positions
          (List.replicate s.cyl_ivp.xyz_positions.length 2),
        QueueDraw.colored_vertex_shader 1 s.cone_ivp.indices s.cone_ivp.xyz_positions
          (List.replicate s.cone_ivp.xyz_positions.length ext.bisque4)
          (List.replicate s.cone_ivp.xyz_positions.length 1),
        QueueDraw.colored_vertex_shader 2 s.cyl_ivp.indices s.cyl_ivp.xyz_positions
          (List.replicate s.cyl_ivp.xyz_positions.length ext.orange)
          (List.replicate s.cyl_ivp.xyz_positions.length 2) ] := by
  have hc := track_cone_mesh inp (deselect inp (pick inp (id_pass (refresh_ltw ext s))))
  have hy := track_cyl_mesh inp (deselect inp (pick inp (id_pass (refresh_ltw ext s))))
  rw [deselect_cone, pick_cone] at hc
  rw [deselect_cyl, pick_cyl] at hy
  rw [frame_queue_draws, frame_at_colored_flush]
  simp only [id_pass_draws, colored_pass_draws, cone_object_ids, cyl_object_ids, hc.1, hc.2,
    hy.1, hy.2]
  rfl

/-- In every frame all per-vertex arrays of every `queue_draw` call, the tags
among them, are as long as the position array. -/
theorem frame_queue_draws_lengths {α M : Type} [Add α] [Mul α] [OfNat α 3] (ext : Ext α M)
    (inp : FrameInput α) (s : Scene α M) :
    ∀ q ∈ (frame ext inp s).queue_draws,
      (∀ n ∈ q.attribute_lengths, n = q.xyz_positions.length) ∧
      q.object_id_tags.length = q.xyz_positions.length := by
  intro q hq
  rw [frame_queue_draws_explicit] at hq
  simp only [List.mem_cons, List.mem_singleton, List.not_mem_nil, or_false] at hq
  rcases hq with h | h | h | h <;> subst h <;>
    simp [QueueDraw.attribute_lengths, QueueDraw.xyz_positions, QueueDraw.object_id_tags]

/-- C5 at the sample frame: the first argument and the tags of the four
`queue_draw` calls. The two id-pass calls pass 0 and 1 while tagging the
vertices with 1 and 2; the two coloured calls pass 1 and 2 with the same tags.
So one call of the frame has a first argument outside `[1, 1023]` and a tag
different from it. -/
theorem id_pass_first_argument_differs_from_tags :
    (frame sample_ext (sample_click 1) sample_scene).queue_draws.map
        (fun q => (q.object_id, q.object_id_tags))
      = [(0, [1, 1, 1]), (1, [2, 2, 2]), (1, [1, 1, 1]), (2, [2, 2, 2])] ∧
    (∃ q ∈ (frame sample_ext (sample_click 1) sample_scene).queue_draws,
      ¬ (1 ≤ q.object_id ∧ q.object_id ≤ CAPACITY - 1) ∧
      ∃ tag ∈ q.object_id_tags, tag ≠ q.object_id) := by
  have h := frame_queue_draws_explicit sample_ext (sample_click 1) sample_scene
  refine ⟨by rw [h]; decide, ?_⟩
  refine ⟨QueueDraw.object_id_shader 0 [0, 1, 2] [1, 1, 1]
    [⟨0, 0, 0⟩, ⟨1, 0, 0⟩, ⟨0, 1, 0⟩] [1, 1, 1], ?_, ?_, 1, ?_, ?_⟩
  · rw [h]
    exact List.mem_cons_self _ _
  · decide
  · decide
  · decide

/-! ## Return paths of `initialize` -/

theorem initialize_incomplete (names : GenNames) (status : Nat) (t : TargetState)
    (h : status ≠ GL_FRAMEBUFFER_COMPLETE) :
    PickingTexture.initialize names status t = Except.error 1 := by
  simp [ PickingTexture.initialize, h]

theorem initialize_complete (names : GenNames) (t : TargetState) :
    PickingTexture.initialize names GL_FRAMEBUFFER_COMPLETE t
      = Except.ok { picking_texture :=
                      ⟨names.framebuffer, names.picking_texture, names.depth_texture⟩,
                    gl := ⟨0, 0, 0⟩ } := by
  simp [ PickingTexture.initialize, glBindFramebuffer, glBindTexture2D]

/-! ## Slots other than 1 and 2 -/

theorem startup_slots_identity {α M : Type} (ext : Ext α M) (raw : MatrixTable M)
    (cone_mesh cyl_mesh : IndexedVertexPositions α) (t : TargetState) :
    SlotsIdentity ext { startup ext raw cone_mesh cyl_mesh with target := t } := by
  intro i h1 h2
  simp only [startup]
  constructor
  · rw [MatrixTable.read_store_ne _ h2, MatrixTable.read_store_ne _ h1, fill_identity_read]
  · rw [fill_identity_read]

theorem frame_slots_identity {α M : Type} [Add α] [Mul α] [OfNat α 3] (ext : Ext α M)
    (inp : FrameInput α) (s : Scene α M) (h : SlotsIdentity ext s) :
    SlotsIdentity ext (frame ext inp s).scene := by
  intro i h1 h2
  have hl : (frame ext inp s).scene.ltw_matrices.read i = ext.identity := by
    rw [frame_ltw, refresh_read_other ext s i h1 h2]
    exact (h i h1 h2).1
  exact ⟨hl, by rw [frame_ubo]; exact hl⟩

theorem run_frames_slots_identity {α M : Type} [Add α] [Mul α] [OfNat α 3] (ext : Ext α M)
    (inputs : List (FrameInput α)) (s : Scene α M) (h : SlotsIdentity ext s) :
    SlotsIdentity ext (run_frames ext inputs s) := by
  induction inputs generalizing s with
  | nil => exact h
  | cons inp rest ih => exact ih _ (frame_slots_identity ext inp s h)

/-- C6. After startup and any number of frames, with any inputs, any picking
target state and any content of the array before the fill loop, every slot other
than 1 and 2 holds the identity matrix, in `ltw_matrices` and in the uploaded
buffer; and an array assignment to slot `j` is read back from slot `j` and
leaves every other slot as it was. -/
theorem unused_slots_stay_identity {α M : Type} [Add α] [Mul α] [OfNat α 3] (ext : Ext α M)
    (raw : MatrixTable M) (cone_mesh cyl_mesh : IndexedVertexPositions α) (t : TargetState)
    (inputs : List (FrameInput α)) (i : Fin CAPACITY) (h1 : i ≠ 1) (h2 : i ≠ 2) :
    (run_frames ext inputs
        { startup ext raw cone_mesh cyl_mesh with target := t }).ltw_matrices.read i
      = ext.identity ∧
    (run_frames ext inputs
        { startup ext raw cone_mesh cyl_mesh with target := t }).ubo.read i = ext.identity ∧
    (∀ (env : MainEnv α M) (s : Scene α M), (main_program ext env).final_scene = some s →
      s.ltw_matrices.read i = ext.identity ∧ s.ubo.read i = ext.identity) ∧
    (∀ (tbl : MatrixTable M) (j : Fin CAPACITY) (m : M),
      (tbl.store j m).read j = m ∧
      ∀ k : Fin CAPACITY, k ≠ j → (tbl.store j m).read k = tbl.read k) := by
  have h := run_frames_slots_identity ext inputs _
    (startup_slots_identity ext raw cone_mesh cyl_mesh t) i h1 h2
  refine ⟨h.1, h.2, fun env s hs => ?_, fun tbl j m =>
    ⟨MatrixTable.read_store_same tbl j m, fun k hk => MatrixTable.read_store_ne tbl hk m⟩⟩
  unfold main_program at hs
  by_cases hc : env.framebuffer_status = GL_FRAMEBUFFER_COMPLETE
  · simp only [hc, initialize_complete, Option.some.injEq] at hs
    rw [← hs]
    exact run_frames_slots_identity ext env.frames _
      (startup_slots_identity ext env.uninitialised env.cone_mesh env.cyl_mesh _) i h1 h2
  · simp [initialize_incomplete _ _ _ hc] at hs

theorem unused_slots_stay_identity_witness :
    (0 : Fin CAPACITY) ≠ 1 ∧ (0 : Fin CAPACITY) ≠ 2 ∧
    (run_frames sample_ext [sample_click 1, sample_release, sample_click 2]
        sample_scene).ltw_matrices.read 0 = sample_ext.identity :=
  ⟨by decide, by decide,
    (unused_slots_stay_identity sample_ext (Mathlib.Vector.replicate CAPACITY []) sample_mesh
      sample_mesh { picking_texture := ⟨7, 8, 9⟩, gl := ⟨0, 0, 0⟩ }
      [sample_click 1, sample_release, sample_click 2] 0 (by decide) (by decide)).1⟩

/-! ## The picking target -/

/-- C8. Over the binding state and the handles, enabling writing twice is the
same as enabling it once; disabling writing when the draw binding already is
the default framebuffer changes nothing, and disabling twice is the same as
disabling once. -/
theorem write_toggles_idempotent (s d : TargetState) (hd : d.gl.draw_framebuffer = 0) :
    PickingTexture.enable_writing (PickingTexture.enable_writing s)
      = PickingTexture.enable_writing s ∧
    PickingTexture.disable_writing d = d ∧
    PickingTexture.disable_writing (PickingTexture.disable_writing d)
      = PickingTexture.disable_writing d ∧
    PickingTexture.disable_writing (PickingTexture.disable_writing s)
      = PickingTexture.disable_writing s := by
  refine ⟨rfl, ?_, rfl, rfl⟩
  rcases d with ⟨pt, ⟨dr, rd, tx⟩⟩
  simp only at hd
  subst hd
  rfl

theorem write_toggles_idempotent_witness :
    (PickingTexture.disable_writing ⟨⟨7, 8, 9⟩, ⟨7, 0, 0⟩⟩).gl.draw_framebuffer = 0 ∧
    PickingTexture.enable_writing (PickingTexture.enable_writing ⟨⟨7, 8, 9⟩, ⟨0, 5, 4⟩⟩)
      = PickingTexture.enable_writing ⟨⟨7, 8, 9⟩, ⟨0, 5, 4⟩⟩ ∧
    PickingTexture.disable_writing (PickingTexture.disable_writing ⟨⟨7, 8, 9⟩, ⟨7, 0, 0⟩⟩)
      = PickingTexture.disable_writing ⟨⟨7, 8, 9⟩, ⟨7, 0, 0⟩⟩ :=
  ⟨rfl,
    (write_toggles_idempotent ⟨⟨7, 8, 9⟩, ⟨0, 5, 4⟩⟩
      (PickingTexture.disable_writing ⟨⟨7, 8, 9⟩, ⟨7, 0, 0⟩⟩) rfl).1,
    (write_toggles_idempotent ⟨⟨7, 8, 9⟩, ⟨0, 5, 4⟩⟩
      (PickingTexture.disable_writing ⟨⟨7, 8, 9⟩, ⟨7, 0, 0⟩⟩) rfl).2.1⟩

/-- C9. `initialize` ends the process with status 1 exactly when the
framebuffer status differs from `GL_FRAMEBUFFER_COMPLETE`; with a complete
framebuffer it returns, holding the generated names, with framebuffer 0 bound for
drawing and reading and texture 0 bound. The program enters the loop only after
a normal return: with an incomplete framebuffer it exits with status 1 before
the first frame, otherwise it runs every frame and exits with status 0. -/
theorem initialize_fatal_iff_incomplete {α M : Type} [Add α] [Mul α] [OfNat α 3]
    (ext : Ext α M) (env : MainEnv α M) (names : GenNames) (status : Nat) (t : TargetState) :
    ( PickingTexture.initialize names status t = Except.error 1
        ↔ status ≠ GL_FRAMEBUFFER_COMPLETE) ∧
    ((∃ code, PickingTexture.initialize names status t = Except.error code)
        ↔ status ≠ GL_FRAMEBUFFER_COMPLETE) ∧
    (status = GL_FRAMEBUFFER_COMPLETE →
      ∃ t' : TargetState, PickingTexture.initialize names status t = Except.ok t' ∧
        t'.gl.draw_framebuffer = 0 ∧ t'.gl.read_framebuffer = 0 ∧ t'.gl.texture_2d = 0 ∧
        t'.picking_texture.frame_buffer_gl_handle = names.framebuffer) ∧
    (env.framebuffer_status ≠ GL_FRAMEBUFFER_COMPLETE →
      (main_program ext env).exit_status = 1 ∧ (main_program ext env).frames_entered = 0) ∧
    (env.framebuffer_status = GL_FRAMEBUFFER_COMPLETE →
      (main_program ext env).exit_status = 0 ∧
      (main_program ext env).frames_entered = env.frames.length) ∧
    (0 < (main_program ext env).frames_entered →
      env.framebuffer_status = GL_FRAMEBUFFER_COMPLETE) := by
  have hmain_bad : env.framebuffer_status ≠ GL_FRAMEBUFFER_COMPLETE →
      (main_program ext env).exit_status = 1 ∧ (main_program ext env).frames_entered = 0 := by
    intro h
    simp [main_program, initialize_incomplete _ _ _ h]
  refine ⟨⟨fun h hs => ?_, initialize_incomplete names status t⟩,
    ⟨fun h hs => ?_, fun h => ⟨1, initialize_incomplete names status t h⟩⟩,
    fun hs => ?_, hmain_bad, fun hs => ?_, fun hpos => ?_⟩
  · rw [hs, initialize_complete] at h
    cases h
  · obtain ⟨code, h⟩ := h
    rw [hs, initialize_complete] at h
    cases h
  · rw [hs, initialize_complete]
    exact ⟨_, rfl, rfl, rfl, rfl, rfl⟩
  · simp [main_program, hs, initialize_complete, EXIT_SUCCESS]
  · by_contra hne
    rw [(hmain_bad hne).2] at hpos
    exact Nat.lt_irrefl 0 hpos

theorem initialize_fatal_iff_incomplete_witness :
    (sample_env 0 3).framebuffer_status ≠ GL_FRAMEBUFFER_COMPLETE ∧
    (main_program sample_ext (sample_env 0 3)).exit_status = 1 ∧
    (main_program sample_ext (sample_env 0 3)).frames_entered = 0 ∧
    (sample_env GL_FRAMEBUFFER_COMPLETE 3).framebuffer_status = GL_FRAMEBUFFER_COMPLETE ∧
    (main_program sample_ext (sample_env GL_FRAMEBUFFER_COMPLETE 3)).exit_status = 0 ∧
    (main_program sample_ext (sample_env GL_FRAMEBUFFER_COMPLETE 3)).frames_entered = 3 :=
  ⟨by decide,
    ((initialize_fatal_iff_incomplete sample_ext (sample_env 0 3) ⟨7, 8, 9⟩ 0
      ⟨PickingTexture.fresh, ⟨0, 0, 0⟩⟩).2.2.2.1 (by decide)).1,
    ((initialize_fatal_iff_incomplete sample_ext (sample_env 0 3) ⟨7, 8, 9⟩ 0
      ⟨PickingTexture.fresh, ⟨0, 0, 0⟩⟩).2.2.2.1 (by decide)).2,
    rfl,
    ((initialize_fatal_iff_incomplete sample_ext (sample_env GL_FRAMEBUFFER_COMPLETE 3) ⟨7, 8, 9⟩
      GL_FRAMEBUFFER_COMPLETE ⟨PickingTexture.fresh, ⟨0, 0, 0⟩⟩).2.2.2.2.1 rfl).1,
    ((initialize_fatal_iff_incomplete sample_ext (sample_env GL_FRAMEBUFFER_COMPLETE 3) ⟨7, 8, 9⟩
      GL_FRAMEBUFFER_COMPLETE ⟨PickingTexture.fresh, ⟨0, 0, 0⟩⟩).2.2.2.2.1 rfl).2⟩

/-! ## The aim point -/

theorem two_pow_32 : (2 : Nat) ^ 32 = 4294967296 := by norm_num

/-- C10. For a screen of `W x H` with `1 ≤ W`, `1 ≤ H` (both `unsigned int`),
the pixel read on a click is `(W / 2, H - 1 - H / 2)`: neither 32-bit
subtraction wraps (the result is the integer `H - 1 - H / 2`), the pixel lies
inside the target, its row is the bottom-origin row of the top-origin centre row
`H / 2`, and for the configured `640 x 480` screen it is `(320, 239)`, which is
the texel the frame loop hands to `read_pixel`. -/
theorem aim_point_inside_target (W H : Nat) (hW : 1 ≤ W) (hH : 1 ≤ H)
    (hW32 : W < 2 ^ 32) (hH32 : H < 2 ^ 32) :
    aim_point W H = (W / 2, H - 1 - H / 2) ∧
    u32_sub H 1 = H - 1 ∧
    (((aim_point W H).2 : Nat) : Int) = (H : Int) - 1 - ((H / 2 : Nat) : Int) ∧
    (aim_point W H).1 < W ∧
    (aim_point W H).2 < H ∧
    (aim_point W H).2 + H / 2 = H - 1 ∧
    aim_point SCREEN_WIDTH SCREEN_HEIGHT = (320, 239) ∧
    (∀ (texels : Nat → Nat → Texel) (t : TargetState),
      (PickingTexture.read_pixel texels (aim_point SCREEN_WIDTH SCREEN_HEIGHT).1
        (aim_point SCREEN_WIDTH SCREEN_HEIGHT).2 t).1.object_id = as_int32 (texels 320 239).r) := by
  rw [two_pow_32] at hW32 hH32
  have hsub : u32_sub H 1 = H - 1 := by
    unfold u32_sub
    rw [two_pow_32]
    omega
  have haim : aim_point W H = (W / 2, H - 1 - H / 2) := by
    unfold aim_point u32_sub u32_div
    rw [two_pow_32]
    refine Prod.ext ?_ ?_
    · show W % 4294967296 / 2 = W / 2
      omega
    · show ((H % 4294967296 + (4294967296 - 1 % 4294967296)) % 4294967296 % 4294967296
          + (4294967296 - H % 4294967296 / 2 % 4294967296)) % 4294967296 = H - 1 - H / 2
      omega
  have h239 : aim_point SCREEN_WIDTH SCREEN_HEIGHT = (320, 239) := by decide
  refine ⟨haim, hsub, ?_, ?_, ?_, ?_, h239, fun texels t => ?_⟩
  · rw [haim]
    show ((H - 1 - H / 2 : Nat) : Int) = _
    omega
  · rw [haim]
    show W / 2 < W
    omega
  · rw [haim]
    show H - 1 - H / 2 < H
    omega
  · rw [haim]
    show H - 1 - H / 2 + H / 2 = H - 1
    omega
  · rw [h239]
    rfl

theorem aim_point_inside_target_witness :
    1 ≤ 1 ∧ 1 ≤ 1 ∧ 1 < 2 ^ 32 ∧ aim_point 1 1 = (0, 0) ∧ (aim_point 1 1).1 < 1 ∧
    (aim_point 1 1).2 < 1 :=
  ⟨by decide, by decide, by norm_num,
    (aim_point_inside_target 1 1 (by decide) (by decide) (by norm_num) (by norm_num)).1,
    (aim_point_inside_target 1 1 (by decide) (by decide) (by norm_num) (by norm_num)).2.2.2.1,
    (aim_point_inside_target 1 1 (by decide) (by decide) (by norm_num) (by norm_num)).2.2.2.2.1⟩

end Picking
